import Mathlib

/-!
Shallow embedding of the ADS122C04 driver (src/registers.rs and src/lib.rs):
the register codec (typed registers ↔ raw bytes) and the I2C device session.
Bytes are modelled as `Nat`; every packed value stays below 256 (no shift/OR
in the source can overflow a `u8`), so no modular reduction is needed on the
encode side, and decode-side claims carry a `b < 256` hypothesis where the
`u8` domain matters.
-/

namespace Ads122c04

/-- Input multiplexer selection (registers.rs, `enum Mux`, codes 0–14; code 15
is undefined). -/
inductive Mux
  | A0A1 | A0A2 | A0A3 | A1A0 | A1A2 | A1A3 | A2A3 | A3A2
  | A0Vss | A1Vss | A2Vss | A3Vss | Vref | Supply | Shorted
deriving DecidableEq

/-- Discriminant of `Mux` (`Mux as u8`). -/
def Mux.toU8 : Mux → Nat
  | .A0A1 => 0 | .A0A2 => 1 | .A0A3 => 2 | .A1A0 => 3
  | .A1A2 => 4 | .A1A3 => 5 | .A2A3 => 6 | .A3A2 => 7
  | .A0Vss => 8 | .A1Vss => 9 | .A2Vss => 10 | .A3Vss => 11
  | .Vref => 12 | .Supply => 13 | .Shorted => 14

/-- `Mux::try_from` (derived `TryFromPrimitive`): defined codes 0–14. -/
def Mux.tryFrom : Nat → Option Mux
  | 0 => some .A0A1 | 1 => some .A0A2 | 2 => some .A0A3 | 3 => some .A1A0
  | 4 => some .A1A2 | 5 => some .A1A3 | 6 => some .A2A3 | 7 => some .A3A2
  | 8 => some .A0Vss | 9 => some .A1Vss | 10 => some .A2Vss | 11 => some .A3Vss
  | 12 => some .Vref | 13 => some .Supply | 14 => some .Shorted
  | _ => none

/-- PGA gain setting (registers.rs, `enum Gain`, codes 0–7). -/
inductive Gain
  | X1 | X2 | X4 | X8 | X16 | X32 | X64 | X128
deriving DecidableEq

/-- Discriminant of `Gain` (`Gain as u8`). -/
def Gain.toU8 : Gain → Nat
  | .X1 => 0 | .X2 => 1 | .X4 => 2 | .X8 => 3
  | .X16 => 4 | .X32 => 5 | .X64 => 6 | .X128 => 7

/-- `Gain::try_from` (derived `TryFromPrimitive`): defined codes 0–7. -/
def Gain.tryFrom : Nat → Option Gain
  | 0 => some .X1 | 1 => some .X2 | 2 => some .X4 | 3 => some .X8
  | 4 => some .X16 | 5 => some .X32 | 6 => some .X64 | 7 => some .X128
  | _ => none

/-- Data rate (registers.rs, `enum DataRate`): normal-mode family `N*` with
discriminants `0x00–0x06` and turbo-mode family `T*` with `0x10–0x16`. -/
inductive DataRate
  | N20 | N45 | N90 | N175 | N330 | N600 | N1000
  | T40 | T90 | T180 | T350 | T660 | T1200 | T2000
deriving DecidableEq

/-- Discriminant of `DataRate` (`DataRate as u8`). -/
def DataRate.toU8 : DataRate → Nat
  | .N20 => 0x00 | .N45 => 0x01 | .N90 => 0x02 | .N175 => 0x03
  | .N330 => 0x04 | .N600 => 0x05 | .N1000 => 0x06
  | .T40 => 0x10 | .T90 => 0x11 | .T180 => 0x12 | .T350 => 0x13
  | .T660 => 0x14 | .T1200 => 0x15 | .T2000 => 0x16

/-- `DataRate::from_dr_mode` (registers.rs lines 164–183): combine the 3-bit
rate code with the turbo-mode flag; out-of-range codes fall back to the
family's first member. -/
def DataRate.from_dr_mode (data_rate : Nat) (turbo_mode : Bool) : DataRate :=
  match turbo_mode, data_rate with
  | false, 0x00 => .N20
  | false, 0x01 => .N45
  | false, 0x02 => .N90
  | false, 0x03 => .N175
  | false, 0x04 => .N330
  | false, 0x05 => .N600
  | false, 0x06 => .N1000
  | false, _ => .N20
  | true, 0x00 => .T40
  | true, 0x01 => .T90
  | true, 0x02 => .T180
  | true, 0x03 => .T350
  | true, 0x04 => .T660
  | true, 0x05 => .T1200
  | true, 0x06 => .T2000
  | true, _ => .T40

/-- Conversion mode (registers.rs, `enum ConversionMode`). -/
inductive ConversionMode
  | Single | Continuous
deriving DecidableEq

/-- Discriminant of `ConversionMode`. -/
def ConversionMode.toU8 : ConversionMode → Nat
  | .Single => 0 | .Continuous => 1

/-- `ConversionMode::try_from`: defined codes 0–1. -/
def ConversionMode.tryFrom : Nat → Option ConversionMode
  | 0 => some .Single | 1 => some .Continuous | _ => none

/-- Voltage reference selection (registers.rs, `enum Vref`, codes 0–3). -/
inductive Vref
  | Internal | External | Supply | Supply2
deriving DecidableEq

/-- Discriminant of `Vref`. -/
def Vref.toU8 : Vref → Nat
  | .Internal => 0 | .External => 1 | .Supply => 2 | .Supply2 => 3

/-- `Vref::try_from`: defined codes 0–3. -/
def Vref.tryFrom : Nat → Option Vref
  | 0 => some .Internal | 1 => some .External
  | 2 => some .Supply | 3 => some .Supply2 | _ => none

/-- Data integrity mode (registers.rs, `enum DataIntegrityMode`, codes 0–2;
code 3 is undefined). -/
inductive DataIntegrityMode
  | Disabled | InvertedData | Crc16
deriving DecidableEq

/-- Discriminant of `DataIntegrityMode`. -/
def DataIntegrityMode.toU8 : DataIntegrityMode → Nat
  | .Disabled => 0 | .InvertedData => 1 | .Crc16 => 2

/-- `DataIntegrityMode::try_from`: defined codes 0–2. -/
def DataIntegrityMode.tryFrom : Nat → Option DataIntegrityMode
  | 0 => some .Disabled | 1 => some .InvertedData | 2 => some .Crc16 | _ => none

/-- Excitation current DAC level (registers.rs, `enum CurrentDac`, codes 0–7,
all defined). -/
inductive CurrentDac
  | Off | I10uA | I50uA | I100uA | I250uA | I500uA | I1000uA | I1500uA
deriving DecidableEq

/-- Discriminant of `CurrentDac`. -/
def CurrentDac.toU8 : CurrentDac → Nat
  | .Off => 0 | .I10uA => 1 | .I50uA => 2 | .I100uA => 3
  | .I250uA => 4 | .I500uA => 5 | .I1000uA => 6 | .I1500uA => 7

/-- `CurrentDac::try_from`: defined codes 0–7. -/
def CurrentDac.tryFrom : Nat → Option CurrentDac
  | 0 => some .Off | 1 => some .I10uA | 2 => some .I50uA | 3 => some .I100uA
  | 4 => some .I250uA | 5 => some .I500uA | 6 => some .I1000uA
  | 7 => some .I1500uA | _ => none

/-- Excitation current routing (registers.rs, `enum CurrentMux`, codes 0–6;
code 7 is undefined). -/
inductive CurrentMux
  | Disabled | Ain0 | Ain1 | Ain2 | Ain3 | Refp | Refn
deriving DecidableEq

/-- Discriminant of `CurrentMux`. -/
def CurrentMux.toU8 : CurrentMux → Nat
  | .Disabled => 0 | .Ain0 => 1 | .Ain1 => 2 | .Ain2 => 3
  | .Ain3 => 4 | .Refp => 5 | .Refn => 6

/-- `CurrentMux::try_from`: defined codes 0–6. -/
def CurrentMux.tryFrom : Nat → Option CurrentMux
  | 0 => some .Disabled | 1 => some .Ain0 | 2 => some .Ain1 | 3 => some .Ain2
  | 4 => some .Ain3 | 5 => some .Refp | 6 => some .Refn | _ => none

/-- Configuration register 0 (registers.rs, `struct Register0`). -/
structure Register0 where
  mux : Mux
  gain : Gain
  pga_bypass : Bool
deriving DecidableEq

/-- `impl From<Register0> for u8` (registers.rs lines 21–29):
`(mux << 4) | (gain << 1) | pga_bypass`. -/
def Register0.toU8 (value : Register0) : Nat :=
  (value.mux.toU8 <<< 4) ||| (value.gain.toU8 <<< 1) ||| value.pga_bypass.toNat

/-- Configuration register 1 (registers.rs, `struct Register1`). -/
structure Register1 where
  data_rate : DataRate
  conversion_mode : ConversionMode
  voltage_reference : Vref
  temperature_sensor_mode : Bool
deriving DecidableEq

/-- `impl From<Register1> for u8` (registers.rs lines 40–51):
`dr = (data_rate as u8) & 0x0F`, `mode = ((data_rate as u8) & 0xF0 != 0) as u8`,
packed as `(dr << 5) | (mode << 4) | (cm << 3) | (vref << 1) | ts`. -/
def Register1.toU8 (value : Register1) : Nat :=
  ((value.data_rate.toU8 &&& 0x0F) <<< 5) |||
    ((value.data_rate.toU8 &&& 0xF0 != 0 : Bool).toNat <<< 4) |||
    (value.conversion_mode.toU8 <<< 3) |||
    (value.voltage_reference.toU8 <<< 1) |||
    value.temperature_sensor_mode.toNat

/-- Configuration register 2 (registers.rs, `struct Register2`). -/
structure Register2 where
  data_ready : Bool
  data_count_enable : Bool
  data_integrity_mode : DataIntegrityMode
  burn_out_source_enable : Bool
  current_dac : CurrentDac
deriving DecidableEq

/-- `impl From<Register2> for u8` (registers.rs lines 63–74):
`(drdy << 7) | (dcnt << 6) | (crc << 4) | (bcs << 3) | idac`.
Note `idac` (a 3-bit code, 0–7) is OR-ed in unshifted. -/
def Register2.toU8 (value : Register2) : Nat :=
  (value.data_ready.toNat <<< 7) ||| (value.data_count_enable.toNat <<< 6) |||
    (value.data_integrity_mode.toU8 <<< 4) |||
    (value.burn_out_source_enable.toNat <<< 3) ||| value.current_dac.toU8

/-- Configuration register 3 (registers.rs, `struct Register3`). -/
structure Register3 where
  current_mux_1 : CurrentMux
  current_mux_2 : CurrentMux
deriving DecidableEq

/-- `impl From<Register3> for u8` (registers.rs lines 83–90):
`(cm1 << 5) | (cm2 << 2)`. -/
def Register3.toU8 (value : Register3) : Nat :=
  (value.current_mux_1.toU8 <<< 5) ||| (value.current_mux_2.toU8 <<< 2)

/-- Tagged union of the four registers (registers.rs, `enum Register`). -/
inductive Register
  | Reg0 : Register0 → Register
  | Reg1 : Register1 → Register
  | Reg2 : Register2 → Register
  | Reg3 : Register3 → Register
deriving DecidableEq

/-- The `(reg, value)` pair computed by the `match` inside `write_regs`
(lib.rs lines 67–72): register index and codec-encoded byte. -/
def Register.pair : Register → Nat × Nat
  | .Reg0 r => (0, r.toU8)
  | .Reg1 r => (1, r.toU8)
  | .Reg2 r => (2, r.toU8)
  | .Reg3 r => (3, r.toU8)

/-- Pure decoding part of `read_reg0` (lib.rs lines 90–101): field extraction
from the fetched byte, with `unwrap_or` defaults. -/
def decodeReg0 (value : Nat) : Register0 :=
  { mux := (Mux.tryFrom (value >>> 4)).getD .A0A1
    gain := (Gain.tryFrom ((value >>> 1) &&& 0b111)).getD .X1
    pga_bypass := (value &&& 0b1) != 0 }

/-- Pure decoding part of `read_reg1` (lib.rs lines 104–118). Note the source
computes `mode = (value >> 4) != 0` with no `& 0b1` mask, so rate bits [7:5]
participate in the turbo-mode flag. -/
def decodeReg1 (value : Nat) : Register1 :=
  { data_rate := DataRate.from_dr_mode ((value >>> 5) &&& 0b111) ((value >>> 4) != 0)
    conversion_mode := (ConversionMode.tryFrom ((value >>> 3) &&& 0b1)).getD .Single
    voltage_reference := (Vref.tryFrom ((value >>> 1) &&& 0b11)).getD .Internal
    temperature_sensor_mode := (value &&& 0b1) != 0 }

/-- Pure decoding part of `read_reg2` (lib.rs lines 121–136). Note the source
computes `dcnt = (value >> 6) != 0` and `bcs = (value >> 3) != 0` with no
single-bit mask, and `idac = value & 0b11` (only 2 bits). -/
def decodeReg2 (value : Nat) : Register2 :=
  { data_ready := (value >>> 7) != 0
    data_count_enable := (value >>> 6) != 0
    data_integrity_mode := (DataIntegrityMode.tryFrom ((value >>> 4) &&& 0b11)).getD .Disabled
    burn_out_source_enable := (value >>> 3) != 0
    current_dac := (CurrentDac.tryFrom (value &&& 0b11)).getD .Off }

/-- Pure decoding part of `read_reg3` (lib.rs lines 139–148). -/
def decodeReg3 (value : Nat) : Register3 :=
  { current_mux_1 := (CurrentMux.tryFrom ((value >>> 5) &&& 0b111)).getD .Disabled
    current_mux_2 := (CurrentMux.tryFrom ((value >>> 2) &&& 0b111)).getD .Disabled }

/-- One I2C bus exchange, as issued by the session: a plain write of a byte
buffer, or a write-then-read of a byte buffer followed by reading `readLen`
bytes in one transaction. -/
inductive I2cCall
  | write : Nat → List Nat → I2cCall
  | writeRead : Nat → List Nat → Nat → I2cCall
deriving DecidableEq

/-- The 7-bit device address a call was issued to. -/
def I2cCall.addr : I2cCall → Nat
  | .write a _ => a
  | .writeRead a _ _ => a

/-- The transport collaborator (`embedded_hal_async::i2c::I2c`), modelled as
an oracle: each exchange either succeeds (for `write_read`, yielding the bytes
the device returned) or fails with a transport error `ε`. -/
structure Transport (ε : Type) where
  runWrite : Nat → List Nat → Except ε Unit
  runWriteRead : Nat → List Nat → Nat → Except ε (List Nat)

/-- The device session (lib.rs, `struct ADS122C04`): one transport handle and
one 7-bit bus address. -/
structure ADS122C04 (ε : Type) where
  i2c : Transport ε
  address : Nat

/-- Result of running one session operation: the session afterwards (the
source never assigns to `self`'s fields, so operations return it unchanged),
the list of transport exchanges issued, and the operation's `Result`. -/
structure Op (ε α : Type) where
  session : ADS122C04 ε
  trace : List I2cCall
  result : Except ε α

/-- `ADS122C04::new` (lib.rs lines 18–23). -/
def ADS122C04.new (i2c : Transport ε) (address : Nat) : ADS122C04 ε :=
  { i2c := i2c, address := address }

/-- `reset` (lib.rs lines 27–29): one write of the single opcode byte
`0b00000110`. -/
def ADS122C04.reset (s : ADS122C04 ε) : Op ε Unit :=
  { session := s
    trace := [.write s.address [0b00000110]]
    result := s.i2c.runWrite s.address [0b00000110] }

/-- `start_sync` (lib.rs lines 33–35): one write of `0b00001000`. -/
def ADS122C04.start_sync (s : ADS122C04 ε) : Op ε Unit :=
  { session := s
    trace := [.write s.address [0b00001000]]
    result := s.i2c.runWrite s.address [0b00001000] }

/-- `power_down` (lib.rs lines 39–41): one write of `0b00000010`. -/
def ADS122C04.power_down (s : ADS122C04 ε) : Op ε Unit :=
  { session := s
    trace := [.write s.address [0b00000010]]
    result := s.i2c.runWrite s.address [0b00000010] }

/-- `read_data::<N>` (lib.rs lines 45–49): one write-then-read of opcode
`0b00010000` reading `n` bytes, returning the received bytes unmodified. -/
def ADS122C04.read_data (s : ADS122C04 ε) (n : Nat) : Op ε (List Nat) :=
  { session := s
    trace := [.writeRead s.address [0b00010000] n]
    result :=
      match s.i2c.runWriteRead s.address [0b00010000] n with
      | .error e => .error e
      | .ok out => .ok out }

/-- `read_data_ready` (lib.rs lines 53–57): one write-then-read of opcode
`0b00101000` reading 1 byte, returning `(out[0] >> 7) != 0`. -/
def ADS122C04.read_data_ready (s : ADS122C04 ε) : Op ε Bool :=
  { session := s
    trace := [.writeRead s.address [0b00101000] 1]
    result :=
      match s.i2c.runWriteRead s.address [0b00101000] 1 with
      | .error e => .error e
      | .ok out => .ok ((out.getD 0 0 >>> 7) != 0) }

/-- The command buffer built by the loop in `write_regs` (lib.rs lines 63–76):
for each register, the opcode byte `0b01000000 | (reg << 2)` followed by the
codec-encoded value byte. -/
def writeRegsBuf : List Register → List Nat
  | [] => []
  | r :: rest =>
      (0b01000000 ||| ((Register.pair r).1 <<< 2)) :: (Register.pair r).2 ::
        writeRegsBuf rest

/-- `write_regs` (lib.rs lines 61–79): build the command buffer, then issue
exactly one transport write carrying it. -/
def ADS122C04.write_regs (s : ADS122C04 ε) (registers : List Register) : Op ε Unit :=
  { session := s
    trace := [.write s.address (writeRegsBuf registers)]
    result := s.i2c.runWrite s.address (writeRegsBuf registers) }

/-- `read_reg_raw` (lib.rs lines 82–87): one write-then-read of opcode
`0b00100000 | (reg << 2)` reading 1 byte. -/
def ADS122C04.read_reg_raw (s : ADS122C04 ε) (reg : Nat) : Op ε Nat :=
  { session := s
    trace := [.writeRead s.address [0b00100000 ||| (reg <<< 2)] 1]
    result :=
      match s.i2c.runWriteRead s.address [0b00100000 ||| (reg <<< 2)] 1 with
      | .error e => .error e
      | .ok buf => .ok (buf.getD 0 0) }

/-- `read_reg0` (lib.rs lines 90–101): fetch the raw byte via `read_reg_raw 0`
and decode it. -/
def ADS122C04.read_reg0 (s : ADS122C04 ε) : Op ε Register0 :=
  { session := (s.read_reg_raw 0).session
    trace := (s.read_reg_raw 0).trace
    result :=
      match (s.read_reg_raw 0).result with
      | .error e => .error e
      | .ok value => .ok (decodeReg0 value) }

/-- `read_reg1` (lib.rs lines 104–118). -/
def ADS122C04.read_reg1 (s : ADS122C04 ε) : Op ε Register1 :=
  { session := (s.read_reg_raw 1).session
    trace := (s.read_reg_raw 1).trace
    result :=
      match (s.read_reg_raw 1).result with
      | .error e => .error e
      | .ok value => .ok (decodeReg1 value) }

/-- `read_reg2` (lib.rs lines 121–136). -/
def ADS122C04.read_reg2 (s : ADS122C04 ε) : Op ε Register2 :=
  { session := (s.read_reg_raw 2).session
    trace := (s.read_reg_raw 2).trace
    result :=
      match (s.read_reg_raw 2).result with
      | .error e => .error e
      | .ok value => .ok (decodeReg2 value) }

/-- `read_reg3` (lib.rs lines 139–148). -/
def ADS122C04.read_reg3 (s : ADS122C04 ε) : Op ε Register3 :=
  { session := (s.read_reg_raw 3).session
    trace := (s.read_reg_raw 3).trace
    result :=
      match (s.read_reg_raw 3).result with
      | .error e => .error e
      | .ok value => .ok (decodeReg3 value) }

/-- A transport that always succeeds, answering every write-then-read with
the fixed byte list `resp`; used to instantiate theorems at concrete inputs. -/
def okTransport (resp : List Nat) : Transport Unit :=
  { runWrite := fun _ _ => .ok ()
    runWriteRead := fun _ _ _ => .ok resp }

/-- A transport that always fails with the error `e`; used to instantiate the
error-propagation theorems at concrete inputs. -/
def errTransport (e : ε) : Transport ε :=
  { runWrite := fun _ _ => .error e
    runWriteRead := fun _ _ _ => .error e }

/-- C1: the claim states `decode(encode(v)) = v` for every typed register
value. It fails on the code: `read_reg1` computes the turbo-mode flag as
`(value >> 4) != 0` without masking to bit 4, so the rate bits [7:5] leak
into the family flag. Encoding `Register1 { data_rate: N45, .. }` yields byte
`0x20`, and decoding `0x20` returns `data_rate = T90`, not `N45`. -/
theorem c1_roundtrip_fails_on_reg1 :
    decodeReg1 (Register1.toU8
      { data_rate := .N45, conversion_mode := .Single,
        voltage_reference := .Internal, temperature_sensor_mode := false }) =
      { data_rate := .T90, conversion_mode := .Single,
        voltage_reference := .Internal, temperature_sensor_mode := false } ∧
    ({ data_rate := .T90, conversion_mode := .Single,
        voltage_reference := .Internal, temperature_sensor_mode := false } : Register1) ≠
      { data_rate := .N45, conversion_mode := .Single,
        voltage_reference := .Internal, temperature_sensor_mode := false } := by
  decide

/-- C2: the claim states that a register-1 byte with family-bit (bit 4) = 0
and rate-bits (bits [7:5]) = 4 decodes to `N330`, for every setting of bits
[3:0]. On the code it fails at byte `0x80` (family-bit 0, rate-bits 4, low
bits 0): `read_reg1` computes the family flag as `(value >> 4) != 0`
unmasked, so the rate bits make it `true` and the decode returns `T660`.
`DataRate::from_dr_mode` itself does map (rate 4, turbo false) to `N330`, as
the claim says; the slip is in `read_reg1`'s bit extraction. -/
theorem c2_pairing_fails_at_0x80 :
    decodeReg1 0x80 =
      { data_rate := .T660, conversion_mode := .Single,
        voltage_reference := .Internal, temperature_sensor_mode := false } ∧
    DataRate.from_dr_mode 4 false = .N330 ∧
    DataRate.from_dr_mode 7 false = .N20 ∧
    DataRate.from_dr_mode 4 true = .T660 ∧
    DataRate.from_dr_mode 7 true = .T40 := by
  decide

/-- C3 counterexample: the claim places the 8-level `current_dac` at bits
[1:0] of the encoded register-2 byte. Encoding a `Register2` whose
`current_dac` is `I250uA` (code 4) puts `0` in bits [1:0]: the code is OR-ed
in unshifted and occupies bits [2:0]. -/
theorem c3_current_dac_not_in_two_bits :
    ¬ (Register2.toU8
        { data_ready := false, data_count_enable := false,
          data_integrity_mode := .Disabled, burn_out_source_enable := false,
          current_dac := .I250uA } &&& 0b11 = CurrentDac.toU8 .I250uA) := by
  decide

/-- C3 (amended): `Register2` packs with `data_ready` at bit 7,
`data_count_enable` at bit 6, `data_integrity_mode` at bits [5:4],
`burn_out_source_enable` at bit 3, and `current_dac` at bits [2:0] (codes
0–3 thus coincide with bits [1:0]); decode extracts `current_dac` from bits
[1:0] only. -/
theorem c3_register2_packing :
    (∀ b : Nat,
      (decodeReg2 b).current_dac = (CurrentDac.tryFrom (b &&& 0b11)).getD .Off) ∧
    ∀ v : Register2,
      Register2.toU8 v >>> 7 = v.data_ready.toNat ∧
      (Register2.toU8 v >>> 6) &&& 0b1 = v.data_count_enable.toNat ∧
      (Register2.toU8 v >>> 4) &&& 0b11 = v.data_integrity_mode.toU8 ∧
      (Register2.toU8 v >>> 3) &&& 0b1 = v.burn_out_source_enable.toNat ∧
      Register2.toU8 v &&& 0b111 = v.current_dac.toU8 := by
  refine ⟨fun b => rfl, fun v => ?_⟩
  obtain ⟨d, c, i, bo, a⟩ := v
  cases d <;> cases c <;> cases i <;> cases bo <;> cases a <;> decide

/-- C4: decoding substitutes the documented default exactly for undefined
field codes: a register-0 byte whose mux field (bits [7:4]) is 15 decodes to
`mux = A0A1`; a register-2 byte whose integrity bits [5:4] are 3 decodes to
`Disabled`; a register-3 byte with either current-mux field equal to 7
decodes that field to `Disabled`; and the `current_dac` decode never takes
its default branch (the extracted code is always a defined one). -/
theorem c4_default_substitution :
    (∀ b : Nat, b < 256 → b >>> 4 = 15 → (decodeReg0 b).mux = Mux.A0A1) ∧
    (∀ b : Nat, b < 256 → (b >>> 4) &&& 0b11 = 3 →
      (decodeReg2 b).data_integrity_mode = DataIntegrityMode.Disabled) ∧
    (∀ b : Nat, b < 256 → (b >>> 5) &&& 0b111 = 7 →
      (decodeReg3 b).current_mux_1 = CurrentMux.Disabled) ∧
    (∀ b : Nat, b < 256 → (b >>> 2) &&& 0b111 = 7 →
      (decodeReg3 b).current_mux_2 = CurrentMux.Disabled) ∧
    (∀ b : Nat, b < 256 →
      CurrentDac.tryFrom (b &&& 0b11) = some (decodeReg2 b).current_dac) := by
  refine ⟨?_, ?_, ?_, ?_, ?_⟩
  · intro b _ h
    simp [decodeReg0, h, Mux.tryFrom]
  · intro b _ h
    simp [decodeReg2, h, DataIntegrityMode.tryFrom]
  · intro b _ h
    simp [decodeReg3, h, CurrentMux.tryFrom]
  · intro b _ h
    simp [decodeReg3, h, CurrentMux.tryFrom]
  · intro b _
    have h4 : b &&& 0b11 < 4 := Nat.lt_succ_of_le Nat.and_le_right
    show CurrentDac.tryFrom (b &&& 0b11) =
      some ((CurrentDac.tryFrom (b &&& 0b11)).getD .Off)
    generalize b &&& 0b11 = n at h4 ⊢
    interval_cases n <;> rfl

/-- For a byte-sized value, the `(out[0] >> 7) != 0` test the driver uses is
exactly bit 7 of the byte. -/
theorem shiftRight7_bne_eq_testBit (b : Nat) (hb : b < 256) :
    ((b >>> 7) != 0) = b.testBit 7 := by
  have h1 : b >>> 7 = b / 128 := by
    rw [Nat.shiftRight_eq_div_pow]
  have h2 : b / 128 = 0 ∨ b / 128 = 1 := by omega
  rcases h2 with h | h <;> simp [Nat.testBit, h1, h]

/-- C5: `write_regs` issues exactly one transport write whose payload is the
concatenation of the per-register two-byte pairs `[0x40 | (index << 2),
encoded byte]` in the caller-given order; writing register 0 with
`Register0 { mux: A1A0, gain: X8, pga_bypass: true }` transmits exactly
`[0x40, 0x37]`. -/
theorem c5_write_regs_framing (ε : Type) (s : ADS122C04 ε) (rs : List Register) :
    (s.write_regs rs).trace = [.write s.address (writeRegsBuf rs)] ∧
    writeRegsBuf rs =
      (rs.map fun r =>
        [0b01000000 ||| ((Register.pair r).1 <<< 2), (Register.pair r).2]).flatten ∧
    (s.write_regs
        [Register.Reg0 { mux := .A1A0, gain := .X8, pga_bypass := true }]).trace =
      [.write s.address [0x40, 0x37]] := by
  refine ⟨rfl, ?_, rfl⟩
  induction rs with
  | nil => rfl
  | cons r t ih => simp [writeRegsBuf, ih]

/-- C6: `reset`, `start_sync`, and `power_down` each issue exactly one write
of the single opcode byte `0x06`, `0x08`, `0x02` respectively; `read_data`
issues one write-then-read of the single byte `0x10` for `n` bytes and
returns the received bytes unmodified; `read_regN` writes the single byte
`0x20 | (N << 2)` and reads exactly one byte. -/
theorem c6_command_opcodes (ε : Type) (s : ADS122C04 ε) :
    (s.reset).trace = [.write s.address [0x06]] ∧
    (s.start_sync).trace = [.write s.address [0x08]] ∧
    (s.power_down).trace = [.write s.address [0x02]] ∧
    (∀ n : Nat, (s.read_data n).trace = [.writeRead s.address [0x10] n]) ∧
    (∀ (n : Nat) (bs : List Nat),
      s.i2c.runWriteRead s.address [0x10] n = .ok bs →
      (s.read_data n).result = .ok bs) ∧
    (s.read_reg0).trace = [.writeRead s.address [0x20] 1] ∧
    (s.read_reg1).trace = [.writeRead s.address [0x24] 1] ∧
    (s.read_reg2).trace = [.writeRead s.address [0x28] 1] ∧
    (s.read_reg3).trace = [.writeRead s.address [0x2C] 1] := by
  refine ⟨rfl, rfl, rfl, fun n => rfl, fun n bs h => ?_, rfl, rfl, rfl, rfl⟩
  simp [ADS122C04.read_data, h]

/-- C6 witness: a successful 2-byte data read on a concrete transport
returns the received bytes unmodified. -/
theorem c6_command_opcodes_witness :
    ((ADS122C04.new (okTransport [7, 9]) 0x45).read_data 2).result = .ok [7, 9] :=
  (c6_command_opcodes Unit
    (ADS122C04.new (okTransport [7, 9]) 0x45)).2.2.2.2.1 2 [7, 9] rfl

/-- C7: `read_data_ready` writes the single opcode byte `0x28`, reads one
byte, and returns bit 7 of that byte; it issues the same exchange as
`read_reg2`, and the boolean it returns equals the `data_ready` field
`read_reg2` decodes from the same response byte. -/
theorem c7_data_ready_bit (ε : Type) (s : ADS122C04 ε) (b : Nat) (hb : b < 256)
    (hresp : s.i2c.runWriteRead s.address [0x28] 1 = .ok [b]) :
    (s.read_data_ready).trace = [.writeRead s.address [0x28] 1] ∧
    (s.read_data_ready).trace = (s.read_reg2).trace ∧
    (s.read_data_ready).result = .ok (b.testBit 7) ∧
    (s.read_reg2).result = .ok (decodeReg2 b) ∧
    (decodeReg2 b).data_ready = b.testBit 7 := by
  refine ⟨rfl, rfl, ?_, ?_, ?_⟩
  · simp [ADS122C04.read_data_ready, hresp, shiftRight7_bne_eq_testBit b hb]
  · simp [ADS122C04.read_reg2, ADS122C04.read_reg_raw, hresp]
  · exact shiftRight7_bne_eq_testBit b hb

/-- C7 witness: on a transport answering `0x80`, `read_data_ready` returns
`true` (= bit 7 of `0x80`). -/
theorem c7_data_ready_bit_witness :
    ((ADS122C04.new (okTransport [0x80]) 0x40).read_data_ready).result =
      .ok ((0x80 : Nat).testBit 7) ∧
    (0x80 : Nat).testBit 7 = true :=
  ⟨(c7_data_ready_bit Unit (ADS122C04.new (okTransport [0x80]) 0x40) 0x80
      (by decide) rfl).2.2.1,
   by decide⟩

/-- C8: every operation issues exactly one transport exchange, and when that
exchange fails with error `e`, the operation returns exactly `e`. -/
theorem c8_error_propagation (ε : Type) (s : ADS122C04 ε) (e : ε) :
    ((s.reset).trace.length = 1 ∧
      (s.i2c.runWrite s.address [0x06] = .error e → (s.reset).result = .error e)) ∧
    ((s.start_sync).trace.length = 1 ∧
      (s.i2c.runWrite s.address [0x08] = .error e →
        (s.start_sync).result = .error e)) ∧
    ((s.power_down).trace.length = 1 ∧
      (s.i2c.runWrite s.address [0x02] = .error e →
        (s.power_down).result = .error e)) ∧
    (∀ n : Nat, (s.read_data n).trace.length = 1 ∧
      (s.i2c.runWriteRead s.address [0x10] n = .error e →
        (s.read_data n).result = .error e)) ∧
    ((s.read_data_ready).trace.length = 1 ∧
      (s.i2c.runWriteRead s.address [0x28] 1 = .error e →
        (s.read_data_ready).result = .error e)) ∧
    ((s.read_reg0).trace.length = 1 ∧
      (s.i2c.runWriteRead s.address [0x20] 1 = .error e →
        (s.read_reg0).result = .error e)) ∧
    ((s.read_reg1).trace.length = 1 ∧
      (s.i2c.runWriteRead s.address [0x24] 1 = .error e →
        (s.read_reg1).result = .error e)) ∧
    ((s.read_reg2).trace.length = 1 ∧
      (s.i2c.runWriteRead s.address [0x28] 1 = .error e →
        (s.read_reg2).result = .error e)) ∧
    ((s.read_reg3).trace.length = 1 ∧
      (s.i2c.runWriteRead s.address [0x2C] 1 = .error e →
        (s.read_reg3).result = .error e)) ∧
    (∀ rs : List Register, (s.write_regs rs).trace.length = 1 ∧
      (s.i2c.runWrite s.address (writeRegsBuf rs) = .error e →
        (s.write_regs rs).result = .error e)) := by
  refine ⟨⟨rfl, fun h => h⟩, ⟨rfl, fun h => h⟩, ⟨rfl, fun h => h⟩,
    fun n => ⟨rfl, fun h => ?_⟩, ⟨rfl, fun h => ?_⟩, ⟨rfl, fun h => ?_⟩,
    ⟨rfl, fun h => ?_⟩, ⟨rfl, fun h => ?_⟩, ⟨rfl, fun h => ?_⟩,
    fun rs => ⟨rfl, fun h => h⟩⟩
  · simp [ADS122C04.read_data, h]
  · simp [ADS122C04.read_data_ready, h]
  · simp [ADS122C04.read_reg0, ADS122C04.read_reg_raw, h]
  · simp [ADS122C04.read_reg1, ADS122C04.read_reg_raw, h]
  · simp [ADS122C04.read_reg2, ADS122C04.read_reg_raw, h]
  · simp [ADS122C04.read_reg3, ADS122C04.read_reg_raw, h]

/-- C8 witness: on an always-failing transport with error `42`, the
operations return exactly `.error 42`. -/
theorem c8_error_propagation_witness :
    ((ADS122C04.new (errTransport (42 : Nat)) 0x40).reset).result = .error 42 ∧
    ((ADS122C04.new (errTransport (42 : Nat)) 0x40).read_reg1).result = .error 42 :=
  ⟨(c8_error_propagation Nat (ADS122C04.new (errTransport 42) 0x40) 42).1.2 rfl,
   ((c8_error_propagation Nat
      (ADS122C04.new (errTransport 42) 0x40) 42).2.2.2.2.2.2.1).2 rfl⟩

/-- C9: `write_regs` on the empty register array still issues exactly one
transport write, carrying a zero-length payload. -/
theorem c9_empty_batch_write (ε : Type) (s : ADS122C04 ε) :
    (s.write_regs []).trace = [.write s.address []] ∧ writeRegsBuf [] = [] :=
  ⟨rfl, rfl⟩

/-- C10: every operation passes the construction-time device address to each
transport call it makes and returns the session unchanged (the session's
only own state is the transport handle and the address, and no operation
assigns to either). -/
theorem c10_frame (ε : Type) (s : ADS122C04 ε) (n reg : Nat)
    (rs : List Register) :
    ((s.reset).session = s ∧
      ((s.reset).trace.all fun c => c.addr == s.address) = true) ∧
    ((s.start_sync).session = s ∧
      ((s.start_sync).trace.all fun c => c.addr == s.address) = true) ∧
    ((s.power_down).session = s ∧
      ((s.power_down).trace.all fun c => c.addr == s.address) = true) ∧
    ((s.read_data n).session = s ∧
      ((s.read_data n).trace.all fun c => c.addr == s.address) = true) ∧
    ((s.read_data_ready).session = s ∧
      ((s.read_data_ready).trace.all fun c => c.addr == s.address) = true) ∧
    ((s.write_regs rs).session = s ∧
      ((s.write_regs rs).trace.all fun c => c.addr == s.address) = true) ∧
    ((s.read_reg_raw reg).session = s ∧
      ((s.read_reg_raw reg).trace.all fun c => c.addr == s.address) = true) ∧
    ((s.read_reg0).session = s ∧
      ((s.read_reg0).trace.all fun c => c.addr == s.address) = true) ∧
    ((s.read_reg1).session = s ∧
      ((s.read_reg1).trace.all fun c => c.addr == s.address) = true) ∧
    ((s.read_reg2).session = s ∧
      ((s.read_reg2).trace.all fun c => c.addr == s.address) = true) ∧
    ((s.read_reg3).session = s ∧
      ((s.read_reg3).trace.all fun c => c.addr == s.address) = true) := by
  refine ⟨⟨rfl, ?_⟩, ⟨rfl, ?_⟩, ⟨rfl, ?_⟩, ⟨rfl, ?_⟩, ⟨rfl, ?_⟩, ⟨rfl, ?_⟩,
    ⟨rfl, ?_⟩, ⟨rfl, ?_⟩, ⟨rfl, ?_⟩, ⟨rfl, ?_⟩, ⟨rfl, ?_⟩⟩ <;>
    simp [ADS122C04.reset, ADS122C04.start_sync, ADS122C04.power_down,
      ADS122C04.read_data, ADS122C04.read_data_ready, ADS122C04.write_regs,
      ADS122C04.read_reg_raw, ADS122C04.read_reg0, ADS122C04.read_reg1,
      ADS122C04.read_reg2, ADS122C04.read_reg3, I2cCall.addr]

/-- C4 witness: the default substitutions at concrete bytes. -/
theorem c4_default_substitution_witness :
    (decodeReg0 0xF0).mux = Mux.A0A1 ∧
    (decodeReg2 0x30).data_integrity_mode = DataIntegrityMode.Disabled ∧
    (decodeReg3 0xE0).current_mux_1 = CurrentMux.Disabled ∧
    (decodeReg3 0x1C).current_mux_2 = CurrentMux.Disabled ∧
    CurrentDac.tryFrom (0xFF &&& 0b11) = some (decodeReg2 0xFF).current_dac :=
  ⟨c4_default_substitution.1 0xF0 (by decide) (by decide),
   c4_default_substitution.2.1 0x30 (by decide) (by decide),
   c4_default_substitution.2.2.1 0xE0 (by decide) (by decide),
   c4_default_substitution.2.2.2.1 0x1C (by decide) (by decide),
   c4_default_substitution.2.2.2.2 0xFF (by decide)⟩

end Ads122c04
